import Mathlib

/-!
Shallow embedding of the `rust-telemetry` service (src/db.rs, src/handlers.rs,
src/main.rs, src/models.rs, src/otel.rs, src/routes.rs, src/state.rs).

The users table is a list of rows in storage order; database calls are pure
functions with an injected fault (`Option DbError`) standing for the driver
failing the call.  `Uuid.new_v4()` is modelled as an explicit oracle argument:
an arbitrary identifier value supplied to the create handler.  `anyhow`
results become `Except` / `Option String` carrying the context message, since
`AppError::into_response` renders `self.0.to_string()`, which for a
`context(...)`-wrapped error is exactly the outermost context message.
-/

/-- Identifier values (`uuid::Uuid`); opaque tokens, modelled as naturals. -/
abbrev Uuid := Nat

/-- One row of the `users` table: columns `id`, `first_name`, `last_name`. -/
structure Row where
  id : Uuid
  first_name : String
  last_name : String
deriving DecidableEq, Repr

/-- `models::User` (src/models.rs). -/
structure User where
  id : Uuid
  first_name : String
  last_name : String
deriving DecidableEq, Repr

/-- `models::CreateUserRequest` (src/models.rs). -/
structure CreateUserRequest where
  first_name : String
  last_name : String
deriving DecidableEq, Repr

/-- Database driver errors (connection failure, constraint violation, timeout). -/
inductive DbError
  | connectionFailure
  | constraintViolation
  | timeout
deriving DecidableEq, Repr

/-- `handlers::AppError` (src/handlers.rs): an `anyhow::Error`, i.e. a context
message wrapped around the preserved source error. -/
structure AppError where
  context : String
  source : DbError
deriving DecidableEq, Repr

/-- Response bodies: empty, a JSON user, a JSON array of users, or plain text. -/
inductive RespBody
  | empty
  | jsonUser (u : User)
  | jsonUsers (us : List User)
  | text (s : String)
deriving DecidableEq, Repr

/-- An HTTP response: status code and body. -/
structure HttpResponse where
  status : Nat
  body : RespBody
deriving DecidableEq, Repr

/-- `state::AppState` (src/state.rs): the database pool (modelled by the table
contents) and the `app.users.created` counter instrument (its current value). -/
structure AppState where
  db : List Row
  users_created_counter : Nat
deriving DecidableEq, Repr

/-- `IntoResponse for AppError` (src/handlers.rs):
`(StatusCode::INTERNAL_SERVER_ERROR, self.0.to_string()).into_response()`.
The rendered text is the outermost context message, not the driver error. -/
def AppError.into_response (e : AppError) : HttpResponse :=
  { status := 500, body := .text e.context }

/-- `SELECT id, first_name, last_name FROM users` via `fetch_all`. -/
def dbSelectAll (fault : Option DbError) (db : List Row) :
    Except DbError (List Row) :=
  match fault with
  | some e => .error e
  | none => .ok db

/-- `SELECT id, first_name, last_name FROM users WHERE id = $1` via
`fetch_optional`: the first row whose `id` column equals the bound id. -/
def dbSelectById (fault : Option DbError) (db : List Row) (id : Uuid) :
    Except DbError (Option Row) :=
  match fault with
  | some e => .error e
  | none => .ok (db.find? (fun r => r.id == id))

/-- `INSERT INTO users (id, first_name, last_name) VALUES ($1, $2, $3)`.
Modelled from the spec: the migration files are not among the sources, so the
schema's uniqueness of `id` ("generated unique identifier (primary key)") is
modelled from the spec's data-model invariant — inserting a duplicate `id`
fails with a constraint violation instead of storing a second row. -/
def dbInsert (fault : Option DbError) (db : List Row) (r : Row) :
    Except DbError (List Row) :=
  match fault with
  | some e => .error e
  | none =>
    if db.any (fun row => row.id == r.id) then .error .constraintViolation
    else .ok (db ++ [r])

/-- Row-to-record mapping used by both read handlers: `User { id: row.get("id"),
first_name: row.get("first_name"), last_name: row.get("last_name") }`. -/
def rowToUser (r : Row) : User :=
  { id := r.id, first_name := r.first_name, last_name := r.last_name }

/-- Body of `handlers::get_users` before the `Result` is rendered: fetch all
rows, map each to a `User`, answer 200 with the JSON array. -/
def get_users_core (fault : Option DbError) (s : AppState) :
    Except AppError (AppState × HttpResponse) :=
  match dbSelectAll fault s.db with
  | .error e => .error { context := "Failed to fetch users", source := e }
  | .ok rows => .ok (s, { status := 200, body := .jsonUsers (rows.map rowToUser) })

/-- Body of `handlers::get_user` after path extraction: single-row lookup by id;
200 with the user when found, 404 (empty body) when no row matches. -/
def get_user_core (fault : Option DbError) (s : AppState) (id : Uuid) :
    Except AppError (AppState × HttpResponse) :=
  match dbSelectById fault s.db id with
  | .error e => .error { context := "Failed to fetch user", source := e }
  | .ok (some r) => .ok (s, { status := 200, body := .jsonUser (rowToUser r) })
  | .ok none => .ok (s, { status := 404, body := .empty })

/-- Body of `handlers::add_user` after body extraction: generate an id
(`genId` models `Uuid::new_v4()`), insert the row, then increment
`users_created_counter` and answer 201 with the full created `User`. -/
def add_user_core (fault : Option DbError) (genId : Uuid) (s : AppState)
    (body : CreateUserRequest) : Except AppError (AppState × HttpResponse) :=
  match dbInsert fault s.db
      { id := genId, first_name := body.first_name, last_name := body.last_name } with
  | .error e => .error { context := "Failed to insert user", source := e }
  | .ok db2 =>
    .ok ({ db := db2, users_created_counter := s.users_created_counter + 1 },
      { status := 201,
        body := .jsonUser
          { id := genId, first_name := body.first_name, last_name := body.last_name } })

/-- The framework boundary around a handler's `Result<_, AppError>`: a
returned error is converted to its response and the state is untouched. -/
def runHandler (s : AppState) :
    Except AppError (AppState × HttpResponse) → AppState × HttpResponse
  | .ok r => r
  | .error e => (s, e.into_response)

/-- `handlers::get_users` as served. -/
def get_users (fault : Option DbError) (s : AppState) : AppState × HttpResponse :=
  runHandler s (get_users_core fault s)

/-- `handlers::get_user` as served (path already extracted). -/
def get_user (fault : Option DbError) (s : AppState) (id : Uuid) :
    AppState × HttpResponse :=
  runHandler s (get_user_core fault s id)

/-- `handlers::add_user` as served (body already extracted). -/
def add_user (fault : Option DbError) (genId : Uuid) (s : AppState)
    (body : CreateUserRequest) : AppState × HttpResponse :=
  runHandler s (add_user_core fault genId s body)

/-- The `{id}` path segment of `GET /user/{id}`: it either deserializes to an
identifier or it does not. -/
inductive PathSegment
  | valid (id : Uuid)
  | malformed (raw : String)
deriving DecidableEq, Repr

/-- Modelled from the spec: the typed path extractor bound by
`routes::create_router` (`Path<Uuid>`) lives in the web framework, not in the
sources; per the spec the operation "fails with `InvalidInput` (400) if the
identifier cannot be parsed into the expected identifier format". -/
def extractPathId : PathSegment → Option Uuid
  | .valid id => some id
  | .malformed _ => none

/-- The JSON body of `POST /user` as received: either it deserializes to a
`CreateUserRequest`, or a required field is missing, or it is malformed. -/
inductive CreateUserBody
  | valid (req : CreateUserRequest)
  | missingFirstName (last_name : String)
  | missingLastName (first_name : String)
  | malformed (raw : String)
deriving DecidableEq, Repr

/-- Modelled from the spec: JSON body deserialization to `CreateUserRequest`
happens in the framework's `Json` extractor, not in the sources; per the spec
the create operation "fails with `InvalidInput` (400) if required fields are
missing or mistyped", before the handler body runs. -/
def extractCreateUserRequest : CreateUserBody → Option CreateUserRequest
  | .valid req => some req
  | .missingFirstName _ => none
  | .missingLastName _ => none
  | .malformed _ => none

/-- The response produced when an extractor rejects the request. -/
def badRequest : HttpResponse := { status := 400, body := .empty }

/-- `GET /user/{id}` as routed: extractor rejection answers 400 and the handler
never runs; otherwise `get_user` runs on the extracted id. -/
def route_get_user (fault : Option DbError) (s : AppState) (seg : PathSegment) :
    AppState × HttpResponse :=
  match extractPathId seg with
  | none => (s, badRequest)
  | some id => get_user fault s id

/-- `POST /user` as routed: extractor rejection answers 400 and the handler
never runs; otherwise `add_user` runs on the extracted request. -/
def route_post_user (fault : Option DbError) (genId : Uuid) (s : AppState)
    (body : CreateUserBody) : AppState × HttpResponse :=
  match extractCreateUserRequest body with
  | none => (s, badRequest)
  | some req => add_user fault genId s req

/-! ### Telemetry bootstrap (src/otel.rs) and subscriber wiring (src/main.rs) -/

/-- Layers stacked onto the tracing registry in `main` (src/main.rs):
`EnvFilter::from_default_env()`, the console `fmt` layer, the OpenTelemetry
trace layer. -/
inductive SubscriberLayer
  | envFilter
  | fmtConsole
  | otelTrace
deriving DecidableEq, Repr

/-- Observable steps of telemetry bootstrap, in execution order. -/
inductive OtelEvent
  | buildResource (service_name : String)
  | buildSpanExporter
  | buildTracerProvider (batch : Bool) (resource : String)
  | buildMetricExporter
  | buildMeterProvider (periodic : Bool) (resource : String)
  | installSubscriber (layers : List SubscriberLayer)
deriving DecidableEq, Repr

/-- Which exporter constructions fail (`SpanExporter::builder().build()`,
`MetricExporter::builder().build()` are the two fallible steps). -/
structure OtelFaults where
  spanExporterFail : Bool
  metricExporterFail : Bool
deriving DecidableEq, Repr

/-- `otel::init_providers` (src/otel.rs): resource with service name
"rust-telemetry"; span exporter; batching tracer provider on that resource;
metric exporter; periodic-export meter provider on the same resource.  Result
is the trace of steps attempted plus `some` context message on failure. -/
def init_providers (f : OtelFaults) : List OtelEvent × Option String :=
  let res := "rust-telemetry"
  let t0 := [OtelEvent.buildResource res, OtelEvent.buildSpanExporter]
  if f.spanExporterFail then (t0, some "Failed to create OTLP span exporter")
  else
    let t1 := t0 ++ [OtelEvent.buildTracerProvider true res, OtelEvent.buildMetricExporter]
    if f.metricExporterFail then (t1, some "Failed to create OTLP metric exporter")
    else (t1 ++ [OtelEvent.buildMeterProvider true res], none)

/-- Telemetry bootstrap as executed by `main` (src/main.rs lines 19-29):
`init_providers`, then the layered subscriber
`registry().with(EnvFilter).with(fmt_layer).with(otel_layer).init()`. -/
def telemetryBootstrap (f : OtelFaults) : List OtelEvent × Option String :=
  match init_providers f with
  | (t, some e) => (t, some e)
  | (t, none) =>
    (t ++ [OtelEvent.installSubscriber
      [SubscriberLayer.envFilter, SubscriberLayer.fmtConsole, SubscriberLayer.otelTrace]],
     none)

/-! ### Process entrypoint (src/main.rs) -/

/-- Observable steps of `main`, in execution order. -/
inductive MainEvent
  | initProviders
  | initSubscriber
  | readDatabaseUrl
  | createPool
  | runMigrations
  | buildMetrics
  | buildRouter
  | bindListener
  | serve
  | shutdownTracer
  | shutdownMeter
deriving DecidableEq, Repr

/-- Which fallible steps of `main` fail. -/
structure MainFaults where
  initProvidersFail : Bool
  databaseUrlMissing : Bool
  createPoolFail : Bool
  migrationsFail : Bool
  bindFail : Bool
  serveFail : Bool
deriving DecidableEq, Repr

/-- `main` (src/main.rs): each `?` propagates the error immediately, returning
from `main`; the two provider shutdowns are the statements after
`axum::serve(...).await.context("Server error")?`.  Result is the trace of
steps attempted plus `some` context message when `main` returns an error. -/
def mainRun (f : MainFaults) : List MainEvent × Option String :=
  let t0 := [MainEvent.initProviders]
  if f.initProvidersFail then (t0, some "Failed to initialize telemetry providers")
  else
    let t1 := t0 ++ [MainEvent.initSubscriber, MainEvent.readDatabaseUrl]
    if f.databaseUrlMissing then (t1, some "DATABASE_URL must be set")
    else
      let t2 := t1 ++ [MainEvent.createPool]
      if f.createPoolFail then (t2, some "Failed to connect to DB")
      else
        let t3 := t2 ++ [MainEvent.runMigrations]
        if f.migrationsFail then (t3, some "Failed to run migrations")
        else
          let t4 := t3 ++ [MainEvent.buildMetrics, MainEvent.buildRouter,
            MainEvent.bindListener]
          if f.bindFail then (t4, some "Failed to bind")
          else
            let t5 := t4 ++ [MainEvent.serve]
            if f.serveFail then (t5, some "Server error")
            else (t5 ++ [MainEvent.shutdownTracer, MainEvent.shutdownMeter], none)

/-! ### Helper lemmas -/

theorem not_mem_map_id_of_any_false (db : List Row) (g : Uuid)
    (h : db.any (fun r => r.id == g) = false) : g ∉ db.map Row.id := by
  rw [List.any_eq_false] at h
  intro hmem
  rcases List.mem_map.mp hmem with ⟨r, hr, hid⟩
  exact h r hr (by simp [hid])

theorem nodup_ids_append (db : List Row) (r : Row)
    (hnodup : (db.map Row.id).Nodup) (hfresh : r.id ∉ db.map Row.id) :
    (((db ++ [r]).map Row.id)).Nodup := by
  rw [List.map_append, List.nodup_append]
  refine ⟨hnodup, by simp, ?_⟩
  simpa [List.disjoint_singleton] using hfresh

theorem find?_none_of_any_false (db : List Row) (g : Uuid)
    (h : db.any (fun r => r.id == g) = false) :
    db.find? (fun r => r.id == g) = none := by
  rw [List.any_eq_false] at h
  rw [List.find?_eq_none]
  exact h

/-! ### Claim theorems -/

/-- C1: for every create request with string fields, whenever the create
operation answers 201 the response carries exactly the submitted
`first_name`/`last_name` together with the generated id, that id was not
present in the table before the insert (fresh, never previously observed), and
uniqueness of `User.id` across the table is preserved by the insertion. -/
theorem add_user_fresh_id_and_fields (f : Option DbError) (g : Uuid) (s : AppState)
    (body : CreateUserRequest)
    (hnodup : (s.db.map Row.id).Nodup)
    (h201 : (add_user f g s body).2.status = 201) :
    (add_user f g s body).2.body
        = RespBody.jsonUser
            { id := g, first_name := body.first_name, last_name := body.last_name }
      ∧ g ∉ s.db.map Row.id
      ∧ (((add_user f g s body).1.db.map Row.id)).Nodup := by
  match f with
  | some e =>
    simp [add_user, add_user_core, dbInsert, runHandler, AppError.into_response] at h201
  | none =>
    by_cases hany : s.db.any (fun row => row.id == g) = true
    · simp [add_user, add_user_core, dbInsert, runHandler, AppError.into_response,
        hany] at h201
    · have hany' : s.db.any (fun row => row.id == g) = false := by
        revert hany; cases s.db.any (fun row => row.id == g) <;> simp
      have hfresh := not_mem_map_id_of_any_false s.db g hany'
      refine ⟨?_, hfresh, ?_⟩
      · simp [add_user, add_user_core, dbInsert, runHandler, hany']
      · simp only [add_user, add_user_core, dbInsert, runHandler, hany']
        exact nodup_ids_append s.db _ hnodup hfresh

theorem add_user_fresh_id_and_fields_witness :
    (add_user none 7 ⟨[⟨1, "A", "B"⟩], 0⟩ ⟨"Ada", "Lovelace"⟩).2.body
        = RespBody.jsonUser ⟨7, "Ada", "Lovelace"⟩
      ∧ (7 : Uuid) ∉ ([⟨1, "A", "B"⟩] : List Row).map Row.id
      ∧ (((add_user none 7 ⟨[⟨1, "A", "B"⟩], 0⟩
            ⟨"Ada", "Lovelace"⟩).1.db.map Row.id)).Nodup :=
  add_user_fresh_id_and_fields none 7 ⟨[⟨1, "A", "B"⟩], 0⟩ ⟨"Ada", "Lovelace"⟩
    (by decide) (by decide)

/-- C2: for `GET /user/{id}`, a path segment that does not parse answers 400
(with the handler never running and the state untouched, for any fault);
when the lookup executes, a matching row answers 200 with that user, and no
matching row answers 404 with empty body — in particular the status for an
absent id is never 500. -/
theorem route_get_user_status_spec (f : Option DbError) (s : AppState) (id : Uuid)
    (raw : String) :
    route_get_user f s (PathSegment.malformed raw) = (s, badRequest)
    ∧ (∀ r, s.db.find? (fun row => row.id == id) = some r →
        (route_get_user none s (PathSegment.valid id)).2
          = { status := 200, body := RespBody.jsonUser (rowToUser r) })
    ∧ (s.db.find? (fun row => row.id == id) = none →
        (route_get_user none s (PathSegment.valid id)).2
          = { status := 404, body := RespBody.empty })
    ∧ (s.db.find? (fun row => row.id == id) = none →
        (route_get_user none s (PathSegment.valid id)).2.status ≠ 500) := by
  refine ⟨rfl, ?_, ?_, ?_⟩
  · intro r hfind
    simp [route_get_user, extractPathId, get_user, get_user_core, dbSelectById,
      runHandler, hfind]
  · intro hfind
    simp [route_get_user, extractPathId, get_user, get_user_core, dbSelectById,
      runHandler, hfind]
  · intro hfind
    simp [route_get_user, extractPathId, get_user, get_user_core, dbSelectById,
      runHandler, hfind]

theorem route_get_user_status_spec_witness :
    route_get_user none ⟨[⟨1, "Ada", "Lovelace"⟩], 0⟩ (PathSegment.malformed "zzz")
        = (⟨[⟨1, "Ada", "Lovelace"⟩], 0⟩, badRequest)
    ∧ (route_get_user none ⟨[⟨1, "Ada", "Lovelace"⟩], 0⟩ (PathSegment.valid 1)).2
        = { status := 200, body := RespBody.jsonUser (rowToUser ⟨1, "Ada", "Lovelace"⟩) }
    ∧ (route_get_user none ⟨[⟨1, "Ada", "Lovelace"⟩], 0⟩ (PathSegment.valid 2)).2
        = { status := 404, body := RespBody.empty }
    ∧ (route_get_user none ⟨[⟨1, "Ada", "Lovelace"⟩], 0⟩ (PathSegment.valid 2)).2.status
        ≠ 500 :=
  ⟨(route_get_user_status_spec none ⟨[⟨1, "Ada", "Lovelace"⟩], 0⟩ 1 "zzz").1,
   (route_get_user_status_spec none ⟨[⟨1, "Ada", "Lovelace"⟩], 0⟩ 1 "zzz").2.1
     ⟨1, "Ada", "Lovelace"⟩ (by decide),
   (route_get_user_status_spec none ⟨[⟨1, "Ada", "Lovelace"⟩], 0⟩ 2 "zzz").2.2.1
     (by decide),
   (route_get_user_status_spec none ⟨[⟨1, "Ada", "Lovelace"⟩], 0⟩ 2 "zzz").2.2.2
     (by decide)⟩

/-- C3: a create request whose JSON body is missing the required `first_name`
field is rejected with 400 by the body extractor (the handler never runs), and
the state — in particular the users table — is returned unchanged. -/
theorem route_post_user_missing_first_name (f : Option DbError) (g : Uuid)
    (s : AppState) (ln : String) :
    route_post_user f g s (CreateUserBody.missingFirstName ln) = (s, badRequest)
    ∧ (route_post_user f g s (CreateUserBody.missingFirstName ln)).1.db = s.db :=
  ⟨rfl, rfl⟩

/-- C5: the list operation (no input beyond the state) maps every row of the
unfiltered select to a `User` via `rowToUser` — one array entry per row, values
taken from the row's columns — and answers 200 with the array; on an empty
table this is a 200 with the empty array, not an error. -/
theorem get_users_maps_rows (s : AppState) :
    get_users none s
        = (s, { status := 200, body := RespBody.jsonUsers (s.db.map rowToUser) })
    ∧ (s.db.map rowToUser).length = s.db.length
    ∧ (∀ c, get_users none ⟨[], c⟩
        = (⟨[], c⟩, { status := 200, body := RespBody.jsonUsers [] })) :=
  ⟨rfl, by simp, fun _ => rfl⟩

/-- C6: for each of the three handlers, a database error yields a 500 response
whose text is the fixed context message — the same for every driver error, so
raw driver internals never reach the caller — while the handler's `AppError`
preserves the original error as its source for server-side logging; the error
is converted to a response at the handler boundary (the served function is
total and leaves the state untouched), never a process crash. -/
theorem handlers_db_error_to_500 (e : DbError) (s : AppState) (id g : Uuid)
    (body : CreateUserRequest) :
    (get_users (some e) s).2
        = { status := 500, body := RespBody.text "Failed to fetch users" }
    ∧ (get_user (some e) s id).2
        = { status := 500, body := RespBody.text "Failed to fetch user" }
    ∧ (add_user (some e) g s body).2
        = { status := 500, body := RespBody.text "Failed to insert user" }
    ∧ get_users_core (some e) s = .error ⟨"Failed to fetch users", e⟩
    ∧ get_user_core (some e) s id = .error ⟨"Failed to fetch user", e⟩
    ∧ add_user_core (some e) g s body = .error ⟨"Failed to insert user", e⟩
    ∧ (get_users (some e) s).1 = s
    ∧ (get_user (some e) s id).1 = s
    ∧ (add_user (some e) g s body).1 = s :=
  ⟨rfl, rfl, rfl, rfl, rfl, rfl, rfl, rfl, rfl⟩

/-- C4 counterexample: when the server loop exits abnormally (every startup
step succeeds but `axum::serve` returns an error), `main` returns the
`"Server error"` context through `?` and neither provider shutdown is ever
reached — telemetry shutdown is not attempted on this exit path. -/
theorem mainRun_serveFail_skips_shutdown :
    (mainRun ⟨false, false, false, false, false, true⟩).2 = some "Server error"
    ∧ MainEvent.shutdownTracer ∉ (mainRun ⟨false, false, false, false, false, true⟩).1
    ∧ MainEvent.shutdownMeter ∉ (mainRun ⟨false, false, false, false, false, true⟩).1 := by
  decide

/-- C4 (amended): telemetry shutdown (tracer provider then meter provider) is
attempted only on the normal exit path — when every startup step and the
server loop succeed, the two shutdowns are the last actions before `main`
returns; on any error exit, `?` propagates the error immediately and no
shutdown is attempted. -/
theorem mainRun_shutdown_only_on_normal_exit (f : MainFaults) :
    ((mainRun f).2 = none →
      (mainRun f).1
        = [MainEvent.initProviders, MainEvent.initSubscriber, MainEvent.readDatabaseUrl,
           MainEvent.createPool, MainEvent.runMigrations, MainEvent.buildMetrics,
           MainEvent.buildRouter, MainEvent.bindListener, MainEvent.serve,
           MainEvent.shutdownTracer, MainEvent.shutdownMeter])
    ∧ ((mainRun f).2 ≠ none →
      MainEvent.shutdownTracer ∉ (mainRun f).1
        ∧ MainEvent.shutdownMeter ∉ (mainRun f).1) := by
  rcases f with ⟨a, b, c, d, e, g⟩
  cases a <;> cases b <;> cases c <;> cases d <;> cases e <;> cases g <;> decide

theorem mainRun_shutdown_only_on_normal_exit_witness :
    (mainRun ⟨false, false, false, false, false, false⟩).1
        = [MainEvent.initProviders, MainEvent.initSubscriber, MainEvent.readDatabaseUrl,
           MainEvent.createPool, MainEvent.runMigrations, MainEvent.buildMetrics,
           MainEvent.buildRouter, MainEvent.bindListener, MainEvent.serve,
           MainEvent.shutdownTracer, MainEvent.shutdownMeter]
    ∧ (MainEvent.shutdownTracer ∉ (mainRun ⟨false, false, false, false, false, true⟩).1
        ∧ MainEvent.shutdownMeter ∉ (mainRun ⟨false, false, false, false, false, true⟩).1) :=
  ⟨(mainRun_shutdown_only_on_normal_exit ⟨false, false, false, false, false, false⟩).1 rfl,
   (mainRun_shutdown_only_on_normal_exit ⟨false, false, false, false, false, true⟩).2
     (by decide)⟩

/-- C7: round trip — whenever the create operation answers 201 for a body,
the get operation on the resulting state at the generated id answers 200 with
exactly the created record (same id, first_name, last_name) and leaves the
state unchanged. -/
theorem create_then_get_round_trip (g : Uuid) (s : AppState) (body : CreateUserRequest)
    (h201 : (add_user none g s body).2.status = 201) :
    route_get_user none (add_user none g s body).1 (PathSegment.valid g)
      = ((add_user none g s body).1,
         { status := 200,
           body := RespBody.jsonUser ⟨g, body.first_name, body.last_name⟩ }) := by
  by_cases hany : s.db.any (fun row => row.id == g) = true
  · simp [add_user, add_user_core, dbInsert, runHandler, AppError.into_response,
      hany] at h201
  · have hany' : s.db.any (fun row => row.id == g) = false := by
      revert hany; cases s.db.any (fun row => row.id == g) <;> simp
    have hfind := find?_none_of_any_false s.db g hany'
    simp [add_user, add_user_core, dbInsert, runHandler, hany', route_get_user,
      extractPathId, get_user, get_user_core, dbSelectById, List.find?_append,
      hfind, rowToUser]

theorem create_then_get_round_trip_witness :
    route_get_user none
        (add_user none 7 ⟨[⟨1, "A", "B"⟩], 3⟩ ⟨"Ada", "Lovelace"⟩).1
        (PathSegment.valid 7)
      = ((add_user none 7 ⟨[⟨1, "A", "B"⟩], 3⟩ ⟨"Ada", "Lovelace"⟩).1,
         { status := 200, body := RespBody.jsonUser ⟨7, "Ada", "Lovelace"⟩ }) :=
  create_then_get_round_trip 7 ⟨[⟨1, "A", "B"⟩], 3⟩ ⟨"Ada", "Lovelace"⟩ (by decide)

/-- C8: the `app.users.created` counter is incremented exactly once by a
create that answers 201 (the increment sits after the successful insert), is
left unchanged when the create does not answer 201 (insert failed), and is
never modified by the list or get handlers; recording the metric is an
infallible state update that cannot fail the request. -/
theorem users_created_counter_behavior (f : Option DbError) (g id : Uuid)
    (s : AppState) (body : CreateUserRequest) :
    ((add_user f g s body).2.status = 201 →
      (add_user f g s body).1.users_created_counter = s.users_created_counter + 1)
    ∧ ((add_user f g s body).2.status ≠ 201 →
      (add_user f g s body).1.users_created_counter = s.users_created_counter)
    ∧ (get_users f s).1.users_created_counter = s.users_created_counter
    ∧ (get_user f s id).1.users_created_counter = s.users_created_counter := by
  refine ⟨?_, ?_, ?_, ?_⟩
  · intro h201
    match f with
    | some e =>
      simp [add_user, add_user_core, dbInsert, runHandler,
        AppError.into_response] at h201
    | none =>
      by_cases hany : s.db.any (fun row => row.id == g) = true
      · simp [add_user, add_user_core, dbInsert, runHandler,
          AppError.into_response, hany] at h201
      · have hany' : s.db.any (fun row => row.id == g) = false := by
          revert hany; cases s.db.any (fun row => row.id == g) <;> simp
        simp [add_user, add_user_core, dbInsert, runHandler, hany']
  · intro hne
    match f with
    | some e => rfl
    | none =>
      by_cases hany : s.db.any (fun row => row.id == g) = true
      · simp [add_user, add_user_core, dbInsert, runHandler, hany,
          AppError.into_response]
      · have hany' : s.db.any (fun row => row.id == g) = false := by
          revert hany; cases s.db.any (fun row => row.id == g) <;> simp
        exact absurd
          (by simp [add_user, add_user_core, dbInsert, runHandler, hany']) hne
  · match f with
    | some e => rfl
    | none => rfl
  · match f with
    | some e => rfl
    | none =>
      cases hfind : s.db.find? (fun r => r.id == id) with
      | none => simp [get_user, get_user_core, dbSelectById, runHandler, hfind]
      | some r => simp [get_user, get_user_core, dbSelectById, runHandler, hfind]

theorem users_created_counter_behavior_witness :
    (add_user none 1 ⟨[], 5⟩ ⟨"a", "b"⟩).1.users_created_counter = 5 + 1
    ∧ (add_user (some DbError.timeout) 1 ⟨[], 5⟩ ⟨"a", "b"⟩).1.users_created_counter
        = 5 :=
  ⟨(users_created_counter_behavior none 1 0 ⟨[], 5⟩ ⟨"a", "b"⟩).1 (by decide),
   (users_created_counter_behavior (some DbError.timeout) 1 0 ⟨[], 5⟩
     ⟨"a", "b"⟩).2.1 (by decide)⟩

/-- C9: the successful transition of telemetry bootstrap performs, in order:
build the resource naming the service "rust-telemetry"; build the span
exporter; build the batching tracer provider bound to that resource; build the
metric exporter; build the periodic-export meter provider bound to the same
resource; then install the layered subscriber combining the environment
filter, the console output layer and the trace layer. -/
theorem telemetryBootstrap_step_order :
    telemetryBootstrap ⟨false, false⟩
      = ([OtelEvent.buildResource "rust-telemetry", OtelEvent.buildSpanExporter,
          OtelEvent.buildTracerProvider true "rust-telemetry",
          OtelEvent.buildMetricExporter,
          OtelEvent.buildMeterProvider true "rust-telemetry",
          OtelEvent.installSubscriber
            [SubscriberLayer.envFilter, SubscriberLayer.fmtConsole,
             SubscriberLayer.otelTrace]],
         none) := rfl

/-- C10: the create handler validates nothing about field contents: for every
body that deserializes to strings — the empty string included — the routed
create runs the handler, which (insert succeeding) stores exactly the
submitted values and answers 201 with them passed through unchanged. -/
theorem add_user_no_field_validation (g : Uuid) (s : AppState)
    (body : CreateUserRequest)
    (hfresh : s.db.any (fun row => row.id == g) = false) :
    route_post_user none g s (CreateUserBody.valid body) = add_user none g s body
    ∧ add_user none g s body
        = (⟨s.db ++ [⟨g, body.first_name, body.last_name⟩],
            s.users_created_counter + 1⟩,
           { status := 201,
             body := RespBody.jsonUser ⟨g, body.first_name, body.last_name⟩ }) := by
  refine ⟨rfl, ?_⟩
  simp [add_user, add_user_core, dbInsert, runHandler, hfresh]

theorem add_user_no_field_validation_witness :
    route_post_user none 0 ⟨[], 0⟩ (CreateUserBody.valid ⟨"", ""⟩)
        = add_user none 0 ⟨[], 0⟩ ⟨"", ""⟩
    ∧ add_user none 0 ⟨[], 0⟩ ⟨"", ""⟩
        = (⟨[] ++ [⟨0, "", ""⟩], 0 + 1⟩,
           { status := 201, body := RespBody.jsonUser ⟨0, "", ""⟩ }) :=
  add_user_no_field_validation 0 ⟨[], 0⟩ ⟨"", ""⟩ (by decide)
